import Mathlib

/-!
Shallow embedding of the ISE ERS client (`cream.py`) in Lean 4.

The client (`class ERS`) talks to a network-policy appliance over HTTP.
We embed each method as a pure function: the server's responses are
passed in as explicit arguments (one per round-trip the method can
perform), and the function returns the method's result dictionary paired
with the list of requests it actually issued, in order.  The transport
layer itself (requests.session, headers, TLS flags, timeouts) is the
out-of-scope collaborator and is not modelled; what is modelled is the
exact branch structure of each method on the status codes and parsed
JSON fields it reads.

Response structures carry precisely the fields the Python code accesses:
  * `SearchResp`  models a collection GET:  `status_code`,
    `json()['SearchResult']['total']`, `...['resources']` (each a
    name/id/description record), presence of `...['nextPage']`, and
    `json()['ERSResponse']['messages'][0]['title']`.
  * `FetchResp`   models a fetch-by-id GET: `status_code`, the record
    under the type-envelope key (e.g. `json()['EndPointGroup']`), and the
    error envelope's first title.
  * `PlainResp`   models a POST/DELETE response: `status_code` and the
    error envelope's first title.

Python's result dict `{'success': .., 'response': .., 'error': ..}` is
embedded as `Result`; the `''` sentinel for `error` is `none`, and the
two keys `total`/`next` that only `list_endpoints_in_group` adds are
`Option` fields that every other method leaves at `none`.
-/

/-- A JSON-ish value, used for request payloads and fetched records. -/
inductive JVal where
  | str (s : String)
  | num (n : Int)
  | obj (fields : List (String × JVal))
  | arr (elems : List JVal)

/-- Field lookup in a JSON object's field list (first match wins). -/
def lookupField : List (String × JVal) → String → Option JVal
  | [], _ => none
  | (k, v) :: rest, key => if k = key then some v else lookupField rest key

/-- `j[key]` for an object, `none` otherwise. -/
def JVal.getField : JVal → String → Option JVal
  | JVal.obj fs, key => lookupField fs key
  | _, _ => none

/-- One element of `SearchResult.resources` (the fields the code reads). -/
structure Resource where
  name : String
  id : String
  description : String
  deriving Repr, DecidableEq

/-- A response to a collection GET, as the fields the code accesses. -/
structure SearchResp where
  status : Nat
  total : Int
  resources : List Resource
  nextPage : Bool
  errTitle : String
  deriving Repr, DecidableEq

/-- A response to a fetch-by-id GET: `record` is the value under the
type-envelope key (`EndPointGroup`, `ERSEndPoint`, ...). -/
structure FetchResp where
  status : Nat
  record : JVal
  errTitle : String

/-- A response to a POST or DELETE. -/
structure PlainResp where
  status : Nat
  errTitle : String
  deriving Repr, DecidableEq

/-- A request issued by the client, with the URL the code formats. -/
inductive Req where
  | get (url : String)
  | post (url : String) (body : JVal)
  | delete (url : String)

/-- The value stored under the `response` key of a result dictionary. -/
inductive RVal where
  | str (s : String)
  | pairs (l : List (String × String))
  | triples (l : List (String × String × String))
  | names (l : List String)
  | record (j : JVal)

/-- The result dictionary.  `error = none` models the `''` sentinel;
`total`/`next` are the extra keys only `list_endpoints_in_group` sets. -/
structure Result where
  success : Bool
  response : RVal
  error : Option Nat := none
  total : Option Int := none
  next : Option Bool := none

/-- The `InvalidMacAddress(Exception)` class: carries the offending value. -/
structure InvalidMacAddress where
  value : String
  deriving Repr, DecidableEq

/-- `resources[0]` access (guarded by `total == 1` in the code). -/
def firstRes (l : List Resource) : Resource :=
  l.headD { name := "", id := "", description := "" }

/-! ### `ERS._mac_test`

Python:
  `re.search(r'([0-9A-F]2-times[:])5-times([0-9A-F])2-times', mac.upper()) is not None`
i.e. an UNANCHORED search for five `hexpair:` blocks followed by a hex
pair, anywhere inside the uppercased string. -/

/-- `[0-9A-F]`: an uppercase hex digit. -/
def isHexUC (c : Char) : Bool :=
  (('0' ≤ c) && (c ≤ '9')) || (('A' ≤ c) && (c ≤ 'F'))

/-- Match `([0-9A-F]2-times[:])n-times([0-9A-F])2-times` at the head of the
list (trailing characters allowed, as in a regex match). -/
def matchMacAt : Nat → List Char → Bool
  | 0, a :: b :: _ => isHexUC a && isHexUC b
  | Nat.succ k, a :: b :: c :: rest =>
      isHexUC a && isHexUC b && (c == ':') && matchMacAt k rest
  | _, _ => false

/-- `re.search`: does the pattern match at some position of the list? -/
def searchMac : List Char → Bool
  | [] => false
  | c :: rest => matchMacAt 5 (c :: rest) || searchMac rest

/-- Python `str.upper`, modelled on the ASCII range (`a`-`z` map to
`A`-`Z`; the MAC strings at issue are ASCII). -/
def pyUpperChar (c : Char) : Char :=
  if ('a' ≤ c) && (c ≤ 'z') then Char.ofNat (c.toNat - 32) else c

/-- Python `mac.upper()` (ASCII model). -/
def pyUpper (s : String) : String :=
  String.mk (s.data.map pyUpperChar)

/-- `ERS._mac_test(mac)`: the unanchored regex search on `mac.upper()`. -/
def _mac_test (mac : String) : Bool :=
  searchMac (pyUpper mac).data

/-- Modelled from the spec: "six uppercase hex pairs joined by colons
(i.e. the exact form AA:BB:CC:DD:EE:FF)" — the WHOLE string, after
uppercasing, is exactly a 17-character MAC.  This is the spec's
acceptance set, for comparison with `_mac_test`. -/
def specExactMac (s : String) : Bool :=
  (pyUpper s).data.length == 17 && matchMacAt 5 (pyUpper s).data

/-! ### Endpoint identity groups -/

/-- `ERS.get_endpoint_groups` (list all endpoint identity groups). -/
def get_endpoint_groups (ub : String) (resp : SearchResp) : Result × List Req :=
  let reqs := [Req.get (ub ++ "/config/endpointgroup")]
  if resp.status = 200 then
    ({ success := true,
       response := RVal.triples (resp.resources.map fun i => (i.name, i.id, i.description)) },
     reqs)
  else
    ({ success := false, response := RVal.str resp.errTitle, error := some resp.status }, reqs)

/-- `ERS.get_endpoint_group` (resolve a group name, then fetch it). -/
def get_endpoint_group (ub group : String) (resolve : SearchResp) (fetch : FetchResp) :
    Result × List Req :=
  let req1 := Req.get (ub ++ "/config/endpointgroup?filter=name.EQ." ++ group)
  if resolve.total = 1 then
    let req2 := Req.get (ub ++ "/config/endpointgroup/" ++ (firstRes resolve.resources).id)
    if fetch.status = 200 then
      ({ success := true, response := RVal.record fetch.record }, [req1, req2])
    else if fetch.status = 404 then
      ({ success := false, response := RVal.str (group ++ " not found"),
         error := some fetch.status }, [req1, req2])
    else
      ({ success := false, response := RVal.str fetch.errTitle,
         error := some fetch.status }, [req1, req2])
  else if resolve.total = 0 then
    ({ success := false, response := RVal.str (group ++ " not found"), error := some 404 },
     [req1])
  else
    ({ success := false, response := RVal.str (group ++ " not found"),
       error := some resolve.status }, [req1])

/-! ### Endpoints -/

/-- `ERS.get_endpoints` (list all endpoints; the >1 / ==1 / ==0 cascade). -/
def get_endpoints (ub : String) (resp : SearchResp) : Result × List Req :=
  let reqs := [Req.get (ub ++ "/config/endpoint")]
  if resp.status = 200 ∧ resp.total > 1 then
    ({ success := true,
       response := RVal.pairs (resp.resources.map fun i => (i.name, i.id)) }, reqs)
  else if resp.status = 200 ∧ resp.total = 1 then
    ({ success := true,
       response := RVal.pairs [((firstRes resp.resources).name, (firstRes resp.resources).id)] },
     reqs)
  else if resp.status = 200 ∧ resp.total = 0 then
    ({ success := true, response := RVal.pairs [] }, reqs)
  else
    ({ success := false, response := RVal.str resp.errTitle, error := some resp.status }, reqs)

/-- `ERS.get_endpoint` (validate the MAC, resolve it, then fetch). -/
def get_endpoint (ub mac_address : String) (resolve : SearchResp) (fetch : FetchResp) :
    Except InvalidMacAddress (Result × List Req) :=
  let is_valid := _mac_test mac_address
  if !is_valid then
    Except.error ⟨mac_address ++ ". Must be in the form of AA:BB:CC:00:11:22"⟩
  else
    let req1 := Req.get (ub ++ "/config/endpoint?filter=mac.EQ." ++ mac_address)
    if resolve.total = 1 then
      let req2 := Req.get (ub ++ "/config/endpoint/" ++ (firstRes resolve.resources).id)
      if fetch.status = 200 then
        Except.ok ({ success := true, response := RVal.record fetch.record }, [req1, req2])
      else if fetch.status = 404 then
        Except.ok ({ success := false, response := RVal.str (mac_address ++ " not found"),
                     error := some fetch.status }, [req1, req2])
      else
        Except.ok ({ success := false, response := RVal.str fetch.errTitle,
                     error := some fetch.status }, [req1, req2])
    else if resolve.total = 0 then
      Except.ok ({ success := false, response := RVal.str (mac_address ++ " not found"),
                   error := some 404 }, [req1])
    else
      Except.ok ({ success := false, response := RVal.str (mac_address ++ " not found"),
                   error := some resolve.status }, [req1])

/-- `ERS.search_endpoints_by_group` (endpoints filtered by group id). -/
def search_endpoints_by_group (ub group_id : String) (resp : SearchResp) : Result × List Req :=
  let reqs := [Req.get (ub ++ "/config/endpoint?filter=groupId.EQ." ++ group_id)]
  if resp.status = 200 ∧ resp.total > 1 then
    ({ success := true,
       response := RVal.pairs (resp.resources.map fun i => (i.name, i.id)) }, reqs)
  else if resp.status = 200 ∧ resp.total = 1 then
    ({ success := true,
       response := RVal.pairs [((firstRes resp.resources).name, (firstRes resp.resources).id)] },
     reqs)
  else if resp.status = 200 ∧ resp.total = 0 then
    ({ success := true, response := RVal.pairs [] }, reqs)
  else
    ({ success := false, response := RVal.str resp.errTitle, error := some resp.status }, reqs)

/-- `ERS.list_endpoints_in_group` (paged listing; sets `total`/`next` only
in the two multi-result branches). -/
def list_endpoints_in_group (ub group_id : String) (page : Int) (resp : SearchResp) :
    Result × List Req :=
  let reqs := [Req.get (ub ++ "/config/endpoint?size=100&filter=groupId.EQ." ++ group_id
                          ++ "&page=" ++ toString page)]
  if resp.status = 200 ∧ resp.total > 100 then
    ({ success := true, response := RVal.names (resp.resources.map fun i => i.name),
       total := some resp.total, next := some resp.nextPage }, reqs)
  else if resp.status = 200 ∧ resp.total > 1 then
    ({ success := true, response := RVal.names (resp.resources.map fun i => i.name),
       total := some resp.total, next := some resp.nextPage }, reqs)
  else if resp.status = 200 ∧ resp.total = 1 then
    ({ success := true, response := RVal.names [(firstRes resp.resources).name] }, reqs)
  else if resp.status = 200 ∧ resp.total = 0 then
    ({ success := true, response := RVal.names [] }, reqs)
  else
    ({ success := false, response := RVal.str resp.errTitle, error := some resp.status }, reqs)

/-- The `data` payload built by `ERS.add_endpoint` (note the hard-coded
`customAttributes` object). -/
def addEndpointData (name description mac profile_id static_profile_assigment group_id
    static_group_assignment : String) : JVal :=
  JVal.obj [("ERSEndPoint", JVal.obj
    [("name", JVal.str name),
     ("description", JVal.str description),
     ("mac", JVal.str mac),
     ("profileId", JVal.str profile_id),
     ("staticProfileAssignment", JVal.str static_profile_assigment),
     ("groupId", JVal.str group_id),
     ("staticGroupAssignment", JVal.str static_group_assignment),
     ("customAttributes", JVal.obj
       [("customAttributes", JVal.obj [("key1", JVal.str "value1")])])])]

/-- `ERS.add_endpoint` (validate the MAC, then POST the payload). -/
def add_endpoint (ub name mac group_id static_profile_assigment static_group_assignment
    profile_id description : String) (presp : PlainResp) :
    Except InvalidMacAddress (Result × List Req) :=
  let is_valid := _mac_test mac
  if !is_valid then
    Except.error ⟨mac ++ ". Must be in the form of AA:BB:CC:00:11:22"⟩
  else
    let data := addEndpointData name description mac profile_id static_profile_assigment
                  group_id static_group_assignment
    let reqs := [Req.post (ub ++ "/config/endpoint") data]
    if presp.status = 201 then
      Except.ok ({ success := true, response := RVal.str (name ++ " Added Successfully") }, reqs)
    else
      Except.ok ({ success := false, response := RVal.str presp.errTitle,
                   error := some presp.status }, reqs)

/-- `ERS.delete_endpoint` (resolve the MAC — with NO `_mac_test` call —
then DELETE by id). -/
def delete_endpoint (ub mac : String) (resolve : SearchResp) (del : PlainResp) :
    Result × List Req :=
  let req1 := Req.get (ub ++ "/config/endpoint?filter=mac.EQ." ++ mac)
  if resolve.total = 1 then
    let req2 := Req.delete (ub ++ "/config/endpoint/" ++ (firstRes resolve.resources).id)
    if del.status = 204 then
      ({ success := true, response := RVal.str (mac ++ " Deleted Successfully") },
       [req1, req2])
    else if del.status = 404 then
      ({ success := false, response := RVal.str (mac ++ " not found"),
         error := some del.status }, [req1, req2])
    else
      ({ success := false, response := RVal.str del.errTitle, error := some del.status },
       [req1, req2])
  else if resolve.total = 0 then
    ({ success := false, response := RVal.str (mac ++ " not found"), error := some 404 },
     [req1])
  else
    ({ success := false, response := RVal.str resolve.errTitle,
       error := some resolve.status }, [req1])

/-! ### Identity groups -/

/-- `ERS.get_identity_groups` (list all identity groups). -/
def get_identity_groups (ub : String) (resp : SearchResp) : Result × List Req :=
  let reqs := [Req.get (ub ++ "/config/identitygroup")]
  if resp.status = 200 then
    ({ success := true,
       response := RVal.triples (resp.resources.map fun i => (i.name, i.id, i.description)) },
     reqs)
  else
    ({ success := false, response := RVal.str resp.errTitle, error := some resp.status }, reqs)

/-- `ERS.get_identity_group` (resolve a group name, then fetch it). -/
def get_identity_group (ub group : String) (resolve : SearchResp) (fetch : FetchResp) :
    Result × List Req :=
  let req1 := Req.get (ub ++ "/config/identitygroup?filter=name.EQ." ++ group)
  if resolve.total = 1 then
    let req2 := Req.get (ub ++ "/config/identitygroup/" ++ (firstRes resolve.resources).id)
    if fetch.status = 200 then
      ({ success := true, response := RVal.record fetch.record }, [req1, req2])
    else if fetch.status = 404 then
      ({ success := false, response := RVal.str (group ++ " not found"),
         error := some fetch.status }, [req1, req2])
    else
      ({ success := false, response := RVal.str fetch.errTitle,
         error := some fetch.status }, [req1, req2])
  else if resolve.total = 0 then
    ({ success := false, response := RVal.str (group ++ " not found"), error := some 404 },
     [req1])
  else
    ({ success := false, response := RVal.str (group ++ " not found"),
       error := some resolve.status }, [req1])

/-! ### Internal users -/

/-- `ERS.get_users` (list all internal users; the count cascade). -/
def get_users (ub : String) (resp : SearchResp) : Result × List Req :=
  let reqs := [Req.get (ub ++ "/config/internaluser")]
  if resp.status = 200 ∧ resp.total > 1 then
    ({ success := true,
       response := RVal.pairs (resp.resources.map fun i => (i.name, i.id)) }, reqs)
  else if resp.status = 200 ∧ resp.total = 1 then
    ({ success := true,
       response := RVal.pairs [((firstRes resp.resources).name, (firstRes resp.resources).id)] },
     reqs)
  else if resp.status = 200 ∧ resp.total = 0 then
    ({ success := true, response := RVal.pairs [] }, reqs)
  else
    ({ success := false, response := RVal.str resp.errTitle, error := some resp.status }, reqs)

/-- `ERS.get_user` (resolve a user name, then fetch it; the ambiguous
branch answers `'Unknown error'`). -/
def get_user (ub user_id : String) (resolve : SearchResp) (fetch : FetchResp) :
    Result × List Req :=
  let req1 := Req.get (ub ++ "/config/internaluser?filter=name.EQ." ++ user_id)
  if resolve.total = 1 then
    let req2 := Req.get (ub ++ "/config/internaluser/" ++ (firstRes resolve.resources).id)
    if fetch.status = 200 then
      ({ success := true, response := RVal.record fetch.record }, [req1, req2])
    else if fetch.status = 404 then
      ({ success := false, response := RVal.str (user_id ++ " not found"),
         error := some fetch.status }, [req1, req2])
    else
      ({ success := false, response := RVal.str fetch.errTitle,
         error := some fetch.status }, [req1, req2])
  else if resolve.total = 0 then
    ({ success := false, response := RVal.str (user_id ++ " not found"), error := some 404 },
     [req1])
  else
    ({ success := false, response := RVal.str "Unknown error",
       error := some resolve.status }, [req1])

/-- The `data` payload built by `ERS.add_user`. -/
def addUserData (user_id password enable first_name last_name email description
    user_group_oid : String) : JVal :=
  JVal.obj [("InternalUser", JVal.obj
    [("name", JVal.str user_id),
     ("password", JVal.str password),
     ("enablePassword", JVal.str enable),
     ("firstName", JVal.str first_name),
     ("lastName", JVal.str last_name),
     ("email", JVal.str email),
     ("description", JVal.str description),
     ("identityGroups", JVal.str user_group_oid)])]

/-- `ERS.add_user` (POST the payload to the internal user store). -/
def add_user (ub user_id password user_group_oid enable first_name last_name email
    description : String) (presp : PlainResp) : Result × List Req :=
  let data := addUserData user_id password enable first_name last_name email description
                user_group_oid
  let reqs := [Req.post (ub ++ "/config/internaluser") data]
  if presp.status = 201 then
    ({ success := true, response := RVal.str (user_id ++ " Added Successfully") }, reqs)
  else
    ({ success := false, response := RVal.str presp.errTitle, error := some presp.status },
     reqs)

/-- `ERS.delete_user` (resolve the user name, then DELETE by id). -/
def delete_user (ub user_id : String) (resolve : SearchResp) (del : PlainResp) :
    Result × List Req :=
  let req1 := Req.get (ub ++ "/config/internaluser?filter=name.EQ." ++ user_id)
  if resolve.total = 1 then
    let req2 := Req.delete (ub ++ "/config/internaluser/" ++ (firstRes resolve.resources).id)
    if del.status = 204 then
      ({ success := true, response := RVal.str (user_id ++ " Deleted Successfully") },
       [req1, req2])
    else if del.status = 404 then
      ({ success := false, response := RVal.str (user_id ++ " not found"),
         error := some del.status }, [req1, req2])
    else
      ({ success := false, response := RVal.str del.errTitle, error := some del.status },
       [req1, req2])
  else if resolve.total = 0 then
    ({ success := false, response := RVal.str (user_id ++ " not found"), error := some 404 },
     [req1])
  else
    ({ success := false, response := RVal.str resolve.errTitle,
       error := some resolve.status }, [req1])

/-! ### Network devices and device groups -/

/-- `ERS.get_device_groups` (list all network device groups). -/
def get_device_groups (ub : String) (resp : SearchResp) : Result × List Req :=
  let reqs := [Req.get (ub ++ "/config/networkdevicegroup")]
  if resp.status = 200 then
    ({ success := true,
       response := RVal.pairs (resp.resources.map fun i => (i.name, i.id)) }, reqs)
  else
    ({ success := false, response := RVal.str resp.errTitle, error := some resp.status }, reqs)

/-- `ERS.get_device_group` (direct fetch of a device group by its oid). -/
def get_device_group (ub device_group_oid : String) (fetch : FetchResp) : Result × List Req :=
  let reqs := [Req.get (ub ++ "/config/networkdevicegroup/" ++ device_group_oid)]
  if fetch.status = 200 then
    ({ success := true, response := RVal.record fetch.record }, reqs)
  else if fetch.status = 404 then
    ({ success := false, response := RVal.str (device_group_oid ++ " not found"),
       error := some fetch.status }, reqs)
  else
    ({ success := false, response := RVal.str fetch.errTitle, error := some fetch.status },
     reqs)

/-- `ERS.get_devices` (list all network devices; the count cascade). -/
def get_devices (ub : String) (resp : SearchResp) : Result × List Req :=
  let reqs := [Req.get (ub ++ "/config/networkdevice")]
  if resp.status = 200 ∧ resp.total > 1 then
    ({ success := true,
       response := RVal.pairs (resp.resources.map fun i => (i.name, i.id)) }, reqs)
  else if resp.status = 200 ∧ resp.total = 1 then
    ({ success := true,
       response := RVal.pairs [((firstRes resp.resources).name, (firstRes resp.resources).id)] },
     reqs)
  else if resp.status = 200 ∧ resp.total = 0 then
    ({ success := true, response := RVal.pairs [] }, reqs)
  else
    ({ success := false, response := RVal.str resp.errTitle, error := some resp.status }, reqs)

/-- `ERS.get_device` (resolve a device name, then fetch it; the ambiguous
branch answers the envelope's first error title). -/
def get_device (ub device : String) (resolve : SearchResp) (fetch : FetchResp) :
    Result × List Req :=
  let req1 := Req.get (ub ++ "/config/networkdevice?filter=name.EQ." ++ device)
  if resolve.total = 1 then
    let req2 := Req.get (ub ++ "/config/networkdevice/" ++ (firstRes resolve.resources).id)
    if fetch.status = 200 then
      ({ success := true, response := RVal.record fetch.record }, [req1, req2])
    else if fetch.status = 404 then
      ({ success := false, response := RVal.str (device ++ " not found"),
         error := some fetch.status }, [req1, req2])
    else
      ({ success := false, response := RVal.str fetch.errTitle,
         error := some fetch.status }, [req1, req2])
  else if resolve.total = 0 then
    ({ success := false, response := RVal.str (device ++ " not found"), error := some 404 },
     [req1])
  else
    ({ success := false, response := RVal.str resolve.errTitle,
       error := some resolve.status }, [req1])

/-- The `data` payload built by `ERS.add_device`.  The SNMP `version` is
the literal `'TWO_C'`; the method's `snmp_v` parameter is never read. -/
def addDeviceData (name description radius_key snmp_ro dev_profile ip_address dev_group
    dev_type dev_location : String) : JVal :=
  JVal.obj [("NetworkDevice", JVal.obj
    [("name", JVal.str name),
     ("description", JVal.str description),
     ("authenticationSettings", JVal.obj
       [("networkProtocol", JVal.str "RADIUS"),
        ("radiusSharedSecret", JVal.str radius_key),
        ("enableKeyWrap", JVal.str "false")]),
     ("snmpsettings", JVal.obj
       [("version", JVal.str "TWO_C"),
        ("roCommunity", JVal.str snmp_ro),
        ("pollingInterval", JVal.num 3600),
        ("linkTrapQuery", JVal.str "true"),
        ("macTrapQuery", JVal.str "true"),
        ("originatingPolicyServicesNode", JVal.str "Auto")]),
     ("profileName", JVal.str dev_profile),
     ("coaPort", JVal.num 1700),
     ("NetworkDeviceIPList", JVal.arr
       [JVal.obj [("ipaddress", JVal.str ip_address), ("mask", JVal.num 32)]]),
     ("NetworkDeviceGroupList", JVal.arr
       [JVal.str dev_group, JVal.str dev_type, JVal.str dev_location,
        JVal.str "IPSEC#Is IPSEC Device#No"])])]

/-- `ERS.add_device` (POST the payload; `snmp_v` is accepted but unused,
exactly as in the source). -/
def add_device (ub name ip_address radius_key snmp_ro dev_group dev_location dev_type
    description snmp_v dev_profile : String) (presp : PlainResp) : Result × List Req :=
  let data := addDeviceData name description radius_key snmp_ro dev_profile ip_address
                dev_group dev_type dev_location
  let reqs := [Req.post (ub ++ "/config/networkdevice") data]
  if presp.status = 201 then
    ({ success := true, response := RVal.str (name ++ " Added Successfully") }, reqs)
  else
    ({ success := false, response := RVal.str presp.errTitle, error := some presp.status },
     reqs)

/-- `ERS.delete_device` (resolve the device name, then DELETE by id). -/
def delete_device (ub device : String) (resolve : SearchResp) (del : PlainResp) :
    Result × List Req :=
  let req1 := Req.get (ub ++ "/config/networkdevice?filter=name.EQ." ++ device)
  if resolve.total = 1 then
    let req2 := Req.delete (ub ++ "/config/networkdevice/" ++ (firstRes resolve.resources).id)
    if del.status = 204 then
      ({ success := true, response := RVal.str (device ++ " Deleted Successfully") },
       [req1, req2])
    else if del.status = 404 then
      ({ success := false, response := RVal.str (device ++ " not found"),
         error := some del.status }, [req1, req2])
    else
      ({ success := false, response := RVal.str del.errTitle, error := some del.status },
       [req1, req2])
  else if resolve.total = 0 then
    ({ success := false, response := RVal.str (device ++ " not found"), error := some 404 },
     [req1])
  else
    ({ success := false, response := RVal.str resolve.errTitle,
       error := some resolve.status }, [req1])

/-- The uniform-result invariant: `success=true` iff the `error` key
still holds the absent sentinel.  (`response` is always present by
construction of `Result`.) -/
def invariantOk (r : Result) : Bool :=
  r.success == r.error.isNone

/-- `invariantOk` lifted over the validation-exception channel. -/
def invariantOkE (x : Except InvalidMacAddress (Result × List Req)) : Bool :=
  match x with
  | Except.ok (r, _) => invariantOk r
  | Except.error _ => true

/-- C3: MAC validation is an unanchored search, not an exact-format
check.  `_mac_test` accepts the 20-character string
`"00:11:22:33:44:55:66"`, which is not of the exact form
`AA:BB:CC:DD:EE:FF` the spec demands be rejected (it merely contains a
valid MAC as a substring); a genuinely well-formed mixed-case MAC is
also accepted, so the failure is exactly the missing anchoring. -/
theorem mac_test_accepts_superstring :
    _mac_test "00:11:22:33:44:55:66" = true ∧
    specExactMac "00:11:22:33:44:55:66" = false ∧
    _mac_test "aa:bb:cc:00:11:22" = true ∧
    specExactMac "aa:bb:cc:00:11:22" = true := by
  decide

/-- C1: whenever the resolve step reports `total == 0`, every
resolve-then-fetch and resolve-then-delete operation returns
`success=false`, `error = 404` (the sentinel, regardless of the resolve
response's own status code), `response = "<key> not found"`, and its
request trace is exactly the single resolve GET — no fetch or DELETE is
issued. -/
theorem resolve_total_zero_not_found (ub key mac : String) (resolve : SearchResp)
    (fetch : FetchResp) (del : PlainResp)
    (h0 : resolve.total = 0) (hmac : _mac_test mac = true) :
    get_endpoint_group ub key resolve fetch =
      ({ success := false, response := RVal.str (key ++ " not found"), error := some 404 },
       [Req.get (ub ++ "/config/endpointgroup?filter=name.EQ." ++ key)]) ∧
    get_identity_group ub key resolve fetch =
      ({ success := false, response := RVal.str (key ++ " not found"), error := some 404 },
       [Req.get (ub ++ "/config/identitygroup?filter=name.EQ." ++ key)]) ∧
    get_user ub key resolve fetch =
      ({ success := false, response := RVal.str (key ++ " not found"), error := some 404 },
       [Req.get (ub ++ "/config/internaluser?filter=name.EQ." ++ key)]) ∧
    get_device ub key resolve fetch =
      ({ success := false, response := RVal.str (key ++ " not found"), error := some 404 },
       [Req.get (ub ++ "/config/networkdevice?filter=name.EQ." ++ key)]) ∧
    get_endpoint ub mac resolve fetch =
      Except.ok
        ({ success := false, response := RVal.str (mac ++ " not found"), error := some 404 },
         [Req.get (ub ++ "/config/endpoint?filter=mac.EQ." ++ mac)]) ∧
    delete_endpoint ub mac resolve del =
      ({ success := false, response := RVal.str (mac ++ " not found"), error := some 404 },
       [Req.get (ub ++ "/config/endpoint?filter=mac.EQ." ++ mac)]) ∧
    delete_user ub key resolve del =
      ({ success := false, response := RVal.str (key ++ " not found"), error := some 404 },
       [Req.get (ub ++ "/config/internaluser?filter=name.EQ." ++ key)]) ∧
    delete_device ub key resolve del =
      ({ success := false, response := RVal.str (key ++ " not found"), error := some 404 },
       [Req.get (ub ++ "/config/networkdevice?filter=name.EQ." ++ key)]) := by
  refine ⟨?_, ?_, ?_, ?_, ?_, ?_, ?_, ?_⟩ <;>
    simp [get_endpoint_group, get_identity_group, get_user, get_device, get_endpoint,
          delete_endpoint, delete_user, delete_device, h0, hmac]

/-- Witness for `resolve_total_zero_not_found` at a concrete resolve
response reporting `total = 0` and a well-formed MAC. -/
theorem resolve_total_zero_not_found_witness :
    delete_endpoint "https://h:9060/ers" "AA:BB:CC:00:11:22"
        { status := 200, total := 0, resources := [], nextPage := false, errTitle := "t" }
        { status := 204, errTitle := "t" } =
      ({ success := false, response := RVal.str ("AA:BB:CC:00:11:22" ++ " not found"),
         error := some 404 },
       [Req.get ("https://h:9060/ers" ++ "/config/endpoint?filter=mac.EQ." ++
                 "AA:BB:CC:00:11:22")]) :=
  (resolve_total_zero_not_found "https://h:9060/ers" "g" "AA:BB:CC:00:11:22"
      { status := 200, total := 0, resources := [], nextPage := false, errTitle := "t" }
      { status := 200, record := JVal.str "", errTitle := "t" }
      { status := 204, errTitle := "t" } rfl (by decide)).2.2.2.2.2.1

/-- C2 counterexample: with an ambiguous resolve (`total = 2`),
`get_user` does NOT answer `"<key> not found"` — its ambiguous branch
answers the literal `'Unknown error'` — so the claim that all
resolve-then-fetch operations classify ambiguity identically to
not-found fails at this concrete input. -/
theorem ambiguous_resolve_counterexample :
    (get_user "https://h:9060/ers" "alice"
        { status := 200, total := 2, resources := [], nextPage := false, errTitle := "t" }
        { status := 200, record := JVal.str "", errTitle := "t" }).1.response =
      RVal.str "Unknown error" ∧
    (RVal.str "Unknown error" ≠ RVal.str ("alice" ++ " not found")) := by
  constructor
  · rfl
  · simp

/-- C2 amended: on an ambiguous resolve (`total` neither 0 nor 1), every
resolve-then-fetch operation fails without issuing the fetch, with
`error` equal to the RESOLVE response's status code (not the 404
sentinel); but the response message differs by resource type:
`get_endpoint_group`, `get_identity_group` and `get_endpoint` say
`"<key> not found"`, `get_user` says `'Unknown error'`, and `get_device`
reports the error envelope's first title. -/
theorem ambiguous_resolve_behaviour (ub key mac : String) (resolve : SearchResp)
    (fetch : FetchResp)
    (h0 : resolve.total ≠ 0) (h1 : resolve.total ≠ 1) (hmac : _mac_test mac = true) :
    get_endpoint_group ub key resolve fetch =
      ({ success := false, response := RVal.str (key ++ " not found"),
         error := some resolve.status },
       [Req.get (ub ++ "/config/endpointgroup?filter=name.EQ." ++ key)]) ∧
    get_identity_group ub key resolve fetch =
      ({ success := false, response := RVal.str (key ++ " not found"),
         error := some resolve.status },
       [Req.get (ub ++ "/config/identitygroup?filter=name.EQ." ++ key)]) ∧
    get_endpoint ub mac resolve fetch =
      Except.ok
        ({ success := false, response := RVal.str (mac ++ " not found"),
           error := some resolve.status },
         [Req.get (ub ++ "/config/endpoint?filter=mac.EQ." ++ mac)]) ∧
    get_user ub key resolve fetch =
      ({ success := false, response := RVal.str "Unknown error",
         error := some resolve.status },
       [Req.get (ub ++ "/config/internaluser?filter=name.EQ." ++ key)]) ∧
    get_device ub key resolve fetch =
      ({ success := false, response := RVal.str resolve.errTitle,
         error := some resolve.status },
       [Req.get (ub ++ "/config/networkdevice?filter=name.EQ." ++ key)]) := by
  refine ⟨?_, ?_, ?_, ?_, ?_⟩ <;>
    simp [get_endpoint_group, get_identity_group, get_endpoint, get_user, get_device,
          h0, h1, hmac]

/-- Witness for `ambiguous_resolve_behaviour` at a concrete resolve
response reporting `total = 2`. -/
theorem ambiguous_resolve_behaviour_witness :
    get_user "https://h:9060/ers" "alice"
        { status := 200, total := 2, resources := [], nextPage := false, errTitle := "t" }
        { status := 200, record := JVal.str "", errTitle := "t" } =
      ({ success := false, response := RVal.str "Unknown error", error := some 200 },
       [Req.get ("https://h:9060/ers" ++ "/config/internaluser?filter=name.EQ." ++ "alice")]) :=
  (ambiguous_resolve_behaviour "https://h:9060/ers" "alice" "AA:BB:CC:00:11:22"
      { status := 200, total := 2, resources := [], nextPage := false, errTitle := "t" }
      { status := 200, record := JVal.str "", errTitle := "t" }
      (by decide) (by decide) (by decide)).2.2.2.1

/-- C4 counterexample: `delete_endpoint` performs no MAC validation.  On
the malformed MAC `"gg:gg:gg:gg:gg:gg"` (rejected by `_mac_test`) it
raises nothing and proceeds to issue the resolve GET carrying the raw
value — contradicting the claim that every MAC-keyed operation rejects a
malformed MAC before any network request. -/
theorem delete_endpoint_skips_mac_validation :
    _mac_test "gg:gg:gg:gg:gg:gg" = false ∧
    (delete_endpoint "https://h:9060/ers" "gg:gg:gg:gg:gg:gg"
        { status := 200, total := 0, resources := [], nextPage := false, errTitle := "t" }
        { status := 204, errTitle := "t" }).2 =
      [Req.get ("https://h:9060/ers" ++ "/config/endpoint?filter=mac.EQ." ++
                "gg:gg:gg:gg:gg:gg")] := by
  constructor
  · decide
  · rfl

/-- C4 amended: `get_endpoint` and `add_endpoint` reject a malformed MAC
before any request by raising `InvalidMacAddress` carrying the offending
value; `delete_endpoint`, however, performs no MAC validation and always
issues the resolve GET with the raw value. -/
theorem mac_validation_behaviour (ub name mac group_id spa sga profile_id d : String)
    (resolve : SearchResp) (fetch : FetchResp) (presp del : PlainResp)
    (hbad : _mac_test mac = false) :
    get_endpoint ub mac resolve fetch =
      Except.error ⟨mac ++ ". Must be in the form of AA:BB:CC:00:11:22"⟩ ∧
    add_endpoint ub name mac group_id spa sga profile_id d presp =
      Except.error ⟨mac ++ ". Must be in the form of AA:BB:CC:00:11:22"⟩ ∧
    (delete_endpoint ub mac resolve del).2.head? =
      some (Req.get (ub ++ "/config/endpoint?filter=mac.EQ." ++ mac)) := by
  refine ⟨?_, ?_, ?_⟩
  · simp [get_endpoint, hbad]
  · simp [add_endpoint, hbad]
  · by_cases h1 : resolve.total = 1
    · by_cases h2 : del.status = 204 <;> by_cases h3 : del.status = 404 <;>
        simp [delete_endpoint, h1, h2, h3]
    · by_cases h0 : resolve.total = 0 <;> simp [delete_endpoint, h1, h0]

/-- Witness for `mac_validation_behaviour` at the malformed MAC
`"gg:gg:gg:gg:gg:gg"`. -/
theorem mac_validation_behaviour_witness :
    get_endpoint "https://h:9060/ers" "gg:gg:gg:gg:gg:gg"
        { status := 200, total := 0, resources := [], nextPage := false, errTitle := "t" }
        { status := 200, record := JVal.str "", errTitle := "t" } =
      Except.error
        ⟨"gg:gg:gg:gg:gg:gg" ++ ". Must be in the form of AA:BB:CC:00:11:22"⟩ :=
  (mac_validation_behaviour "https://h:9060/ers" "n" "gg:gg:gg:gg:gg:gg" "g" "false"
      "true" "p" "d"
      { status := 200, total := 0, resources := [], nextPage := false, errTitle := "t" }
      { status := 200, record := JVal.str "", errTitle := "t" }
      { status := 201, errTitle := "t" } { status := 204, errTitle := "t" }
      (by decide)).1

/-- C5: for every direct-fetch list operation that classifies by count
(`get_endpoints`, `search_endpoints_by_group`, `get_users`,
`get_devices`, `list_endpoints_in_group`), a 200 response reporting
`total = 0` yields `success=true`, an empty response sequence, and no
error — absence of matches is a successful outcome. -/
theorem direct_fetch_total_zero_success (ub group_id : String) (page : Int)
    (resp : SearchResp) (hs : resp.status = 200) (ht : resp.total = 0) :
    (get_endpoints ub resp).1 = { success := true, response := RVal.pairs [] } ∧
    (search_endpoints_by_group ub group_id resp).1 =
      { success := true, response := RVal.pairs [] } ∧
    (get_users ub resp).1 = { success := true, response := RVal.pairs [] } ∧
    (get_devices ub resp).1 = { success := true, response := RVal.pairs [] } ∧
    (list_endpoints_in_group ub group_id page resp).1 =
      { success := true, response := RVal.names [] } := by
  refine ⟨?_, ?_, ?_, ?_, ?_⟩ <;>
    simp [get_endpoints, search_endpoints_by_group, get_users, get_devices,
          list_endpoints_in_group, hs, ht]

/-- Witness for `direct_fetch_total_zero_success` at a concrete 200
response with `total = 0`. -/
theorem direct_fetch_total_zero_success_witness :
    (get_endpoints "https://h:9060/ers"
        { status := 200, total := 0, resources := [], nextPage := false,
          errTitle := "t" }).1 =
      { success := true, response := RVal.pairs [] } :=
  (direct_fetch_total_zero_success "https://h:9060/ers" "g" 1
      { status := 200, total := 0, resources := [], nextPage := false, errTitle := "t" }
      rfl rfl).1

/-- C6: `list_endpoints_in_group` on a 200 response with `total > 1`
(whether or not it exceeds the page size 100) returns the sequence of
names, a `total` field echoing the reported total, and `next = true` iff
the `nextPage` marker is present; on `total = 1` it returns the single
name and leaves the `total` and `next` fields unpopulated. -/
theorem list_endpoints_in_group_pagination (ub group_id : String) (page : Int)
    (r1 r2 : SearchResp) (h1s : r1.status = 200) (h1t : r1.total > 1)
    (h2s : r2.status = 200) (h2t : r2.total = 1) :
    (list_endpoints_in_group ub group_id page r1).1 =
      { success := true, response := RVal.names (r1.resources.map fun i => i.name),
        total := some r1.total, next := some r1.nextPage } ∧
    (list_endpoints_in_group ub group_id page r2).1 =
      { success := true, response := RVal.names [(firstRes r2.resources).name],
        total := none, next := none } := by
  constructor
  · by_cases h : r1.total > 100 <;>
      simp [list_endpoints_in_group, h1s, h1t, h]
  · simp [list_endpoints_in_group, h2s, h2t]

/-- Witness for `list_endpoints_in_group_pagination`: a page reporting
`total = 150` with the next-page marker present, and a page reporting
`total = 1`. -/
theorem list_endpoints_in_group_pagination_witness :
    (list_endpoints_in_group "https://h:9060/ers" "g" 1
        { status := 200, total := 150, resources := [⟨"e1", "i1", ""⟩, ⟨"e2", "i2", ""⟩],
          nextPage := true, errTitle := "t" }).1 =
      { success := true, response := RVal.names ["e1", "e2"],
        total := some 150, next := some true } ∧
    (list_endpoints_in_group "https://h:9060/ers" "g" 2
        { status := 200, total := 1, resources := [⟨"e1", "i1", ""⟩],
          nextPage := false, errTitle := "t" }).1 =
      { success := true, response := RVal.names ["e1"], total := none, next := none } := by
  have h := list_endpoints_in_group_pagination "https://h:9060/ers" "g" 1
      { status := 200, total := 150, resources := [⟨"e1", "i1", ""⟩, ⟨"e2", "i2", ""⟩],
        nextPage := true, errTitle := "t" }
      { status := 200, total := 1, resources := [⟨"e1", "i1", ""⟩],
        nextPage := false, errTitle := "t" } rfl (by decide) rfl rfl
  have h2 := list_endpoints_in_group_pagination "https://h:9060/ers" "g" 2
      { status := 200, total := 150, resources := [⟨"e1", "i1", ""⟩, ⟨"e2", "i2", ""⟩],
        nextPage := true, errTitle := "t" }
      { status := 200, total := 1, resources := [⟨"e1", "i1", ""⟩],
        nextPage := false, errTitle := "t" } rfl (by decide) rfl rfl
  exact ⟨h.1, h2.2⟩

/-- C7: for `add_endpoint`, `add_user` and `add_device`, a 201 Created
status yields `success=true` with response `"<name> Added Successfully"`
and no error; any other status yields `success=false`, response equal to
the error envelope's first message title, and `error` equal to the
status code. -/
theorem add_created_vs_error (ub name mac group_id spa sga profile_id d user_id password
    user_group_oid enable fn ln email ip radius_key snmp_ro dg dl dt snmp_v
    dev_profile : String) (p1 p2 : PlainResp)
    (hmac : _mac_test mac = true) (h1 : p1.status = 201) (h2 : p2.status ≠ 201) :
    add_endpoint ub name mac group_id spa sga profile_id d p1 =
      Except.ok
        ({ success := true, response := RVal.str (name ++ " Added Successfully") },
         [Req.post (ub ++ "/config/endpoint")
            (addEndpointData name d mac profile_id spa group_id sga)]) ∧
    add_endpoint ub name mac group_id spa sga profile_id d p2 =
      Except.ok
        ({ success := false, response := RVal.str p2.errTitle, error := some p2.status },
         [Req.post (ub ++ "/config/endpoint")
            (addEndpointData name d mac profile_id spa group_id sga)]) ∧
    add_user ub user_id password user_group_oid enable fn ln email d p1 =
      ({ success := true, response := RVal.str (user_id ++ " Added Successfully") },
       [Req.post (ub ++ "/config/internaluser")
          (addUserData user_id password enable fn ln email d user_group_oid)]) ∧
    add_user ub user_id password user_group_oid enable fn ln email d p2 =
      ({ success := false, response := RVal.str p2.errTitle, error := some p2.status },
       [Req.post (ub ++ "/config/internaluser")
          (addUserData user_id password enable fn ln email d user_group_oid)]) ∧
    add_device ub name ip radius_key snmp_ro dg dl dt d snmp_v dev_profile p1 =
      ({ success := true, response := RVal.str (name ++ " Added Successfully") },
       [Req.post (ub ++ "/config/networkdevice")
          (addDeviceData name d radius_key snmp_ro dev_profile ip dg dt dl)]) ∧
    add_device ub name ip radius_key snmp_ro dg dl dt d snmp_v dev_profile p2 =
      ({ success := false, response := RVal.str p2.errTitle, error := some p2.status },
       [Req.post (ub ++ "/config/networkdevice")
          (addDeviceData name d radius_key snmp_ro dev_profile ip dg dt dl)]) := by
  refine ⟨?_, ?_, ?_, ?_, ?_, ?_⟩ <;>
    simp [add_endpoint, add_user, add_device, hmac, h1, h2]

/-- Witness for `add_created_vs_error`: a 201 and a 400 response. -/
theorem add_created_vs_error_witness :
    add_user "https://h:9060/ers" "bob" "pw" "oid" "" "" "" "" "" ⟨201, "t"⟩ =
      ({ success := true, response := RVal.str ("bob" ++ " Added Successfully") },
       [Req.post ("https://h:9060/ers" ++ "/config/internaluser")
          (addUserData "bob" "pw" "" "" "" "" "" "oid")]) ∧
    add_user "https://h:9060/ers" "bob" "pw" "oid" "" "" "" "" "" ⟨400, "Bad request"⟩ =
      ({ success := false, response := RVal.str (PlainResp.mk 400 "Bad request").errTitle,
         error := some (PlainResp.mk 400 "Bad request").status },
       [Req.post ("https://h:9060/ers" ++ "/config/internaluser")
          (addUserData "bob" "pw" "" "" "" "" "" "oid")]) := by
  have h := add_created_vs_error "https://h:9060/ers" "n" "AA:BB:CC:00:11:22" "g" "false"
      "true" "p" "" "bob" "pw" "oid" "" "" "" "" "ip" "rk" "ro" "dg" "dl" "dt" "TWO_C"
      "Cisco" ⟨201, "t"⟩ ⟨400, "Bad request"⟩ (by decide) rfl (by decide)
  exact ⟨h.2.2.1, h.2.2.2.1⟩

/-- C9: the group-listing operations succeed on ANY 200 response,
regardless of the reported total (which they never consult), and answer
the projection of the `resources` array in appliance order —
(name, id, description) triples for endpoint and identity groups,
(name, id) pairs for device groups. -/
theorem group_listings_ignore_total (ub : String) (resp : SearchResp)
    (hs : resp.status = 200) :
    (get_endpoint_groups ub resp).1 =
      { success := true,
        response := RVal.triples (resp.resources.map fun i => (i.name, i.id, i.description)) } ∧
    (get_identity_groups ub resp).1 =
      { success := true,
        response := RVal.triples (resp.resources.map fun i => (i.name, i.id, i.description)) } ∧
    (get_device_groups ub resp).1 =
      { success := true,
        response := RVal.pairs (resp.resources.map fun i => (i.name, i.id)) } := by
  refine ⟨?_, ?_, ?_⟩ <;>
    simp [get_endpoint_groups, get_identity_groups, get_device_groups, hs]

/-- Witness for `group_listings_ignore_total`: a 200 response whose
reported total (7) disagrees with the single resource returned — the
listing still succeeds with the projection. -/
theorem group_listings_ignore_total_witness :
    (get_endpoint_groups "https://h:9060/ers"
        { status := 200, total := 7, resources := [⟨"g1", "i1", "d1"⟩],
          nextPage := false, errTitle := "t" }).1 =
      { success := true, response := RVal.triples [("g1", "i1", "d1")] } :=
  (group_listings_ignore_total "https://h:9060/ers"
      { status := 200, total := 7, resources := [⟨"g1", "i1", "d1"⟩],
        nextPage := false, errTitle := "t" } rfl).1

/-- C10: the `add_device` call — result and POST body alike — is
independent of its `snmp_v` argument (the payload hard-codes the SNMP
version `'TWO_C'`), and every `add_endpoint` payload carries the fixed
`customAttributes` object with the `key1`/`value1` entry, whatever the
caller passed. -/
theorem add_payload_constants (ub name ip radius_key snmp_ro dg dl dt d v1 v2
    dev_profile mac group_id spa sga profile_id : String) (presp : PlainResp) :
    add_device ub name ip radius_key snmp_ro dg dl dt d v1 dev_profile presp =
      add_device ub name ip radius_key snmp_ro dg dl dt d v2 dev_profile presp ∧
    (((addDeviceData name d radius_key snmp_ro dev_profile ip dg dt dl).getField
          "NetworkDevice").bind (fun j => j.getField "snmpsettings")).bind
        (fun j => j.getField "version") = some (JVal.str "TWO_C") ∧
    ((addEndpointData name d mac profile_id spa group_id sga).getField
        "ERSEndPoint").bind (fun j => j.getField "customAttributes") =
      some (JVal.obj [("customAttributes", JVal.obj [("key1", JVal.str "value1")])]) := by
  refine ⟨rfl, rfl, rfl⟩

/-- C8: every result any client method returns satisfies the uniform
invariant — `success = true` exactly when the `error` key still holds
the absent sentinel (and the `response`/`error` keys are present by
construction of `Result`). -/
theorem result_success_iff_error_absent :
    (∀ ub resp, invariantOk (get_endpoint_groups ub resp).1 = true) ∧
    (∀ ub g rsv f, invariantOk (get_endpoint_group ub g rsv f).1 = true) ∧
    (∀ ub resp, invariantOk (get_endpoints ub resp).1 = true) ∧
    (∀ ub mac rsv f, invariantOkE (get_endpoint ub mac rsv f) = true) ∧
    (∀ ub g resp, invariantOk (search_endpoints_by_group ub g resp).1 = true) ∧
    (∀ ub g page resp, invariantOk (list_endpoints_in_group ub g page resp).1 = true) ∧
    (∀ ub n mac g spa sga p d presp,
        invariantOkE (add_endpoint ub n mac g spa sga p d presp) = true) ∧
    (∀ ub mac rsv del, invariantOk (delete_endpoint ub mac rsv del).1 = true) ∧
    (∀ ub resp, invariantOk (get_identity_groups ub resp).1 = true) ∧
    (∀ ub g rsv f, invariantOk (get_identity_group ub g rsv f).1 = true) ∧
    (∀ ub resp, invariantOk (get_users ub resp).1 = true) ∧
    (∀ ub u rsv f, invariantOk (get_user ub u rsv f).1 = true) ∧
    (∀ ub u pw oid en fn ln em d presp,
        invariantOk (add_user ub u pw oid en fn ln em d presp).1 = true) ∧
    (∀ ub u rsv del, invariantOk (delete_user ub u rsv del).1 = true) ∧
    (∀ ub resp, invariantOk (get_device_groups ub resp).1 = true) ∧
    (∀ ub oid f, invariantOk (get_device_group ub oid f).1 = true) ∧
    (∀ ub resp, invariantOk (get_devices ub resp).1 = true) ∧
    (∀ ub dv rsv f, invariantOk (get_device ub dv rsv f).1 = true) ∧
    (∀ ub n ip rk ro dg dl dt d v dp presp,
        invariantOk (add_device ub n ip rk ro dg dl dt d v dp presp).1 = true) ∧
    (∀ ub dv rsv del, invariantOk (delete_device ub dv rsv del).1 = true) := by
  refine ⟨?_, ?_, ?_, ?_, ?_, ?_, ?_, ?_, ?_, ?_, ?_, ?_, ?_, ?_, ?_, ?_, ?_, ?_, ?_,
          ?_⟩ <;>
    (intros;
     simp only [get_endpoint_groups, get_endpoint_group, get_endpoints, get_endpoint,
       search_endpoints_by_group, list_endpoints_in_group, add_endpoint, delete_endpoint,
       get_identity_groups, get_identity_group, get_users, get_user, add_user,
       delete_user, get_device_groups, get_device_group, get_devices, get_device,
       add_device, delete_device];
     (repeat' split) <;> rfl)
